import Mathlib

/-!
Verification of the SosmedUploader pipeline against its specification.

Shallow embedding of the reviewed Python sources:
* `src/services/image_processor.py`  (ImageProcessor)
* `src/services/redis_limits.py`     (daily quota limiter)
* `src/main.py`                      (AutoUploader orchestrator)

Image pixel data is abstracted away: an image is either `malformed`
(content that base64/PIL decoding rejects) or a decoded `image w h`
carrying its dimensions; all geometry decisions in the source depend
only on these.  Python float arithmetic on aspect ratios is modelled
with exact rationals, and Python `int()` truncation of a positive
quotient with `Int.floor`.
-/

namespace SosmedUploader

/-! ### ImageProcessor constants (image_processor.py, class attributes) -/

def instagram_width : ℕ := 1080

def instagram_portrait_height : ℕ := 1350

def instagram_square_height : ℕ := 1080

def min_aspect_ratio : ℚ := 0.8

def max_aspect_ratio : ℚ := 1.91

/-- Embedding of `ImageProcessor._calculate_target_size`.  `target_mode` is the
constructor argument of `ImageProcessor` (the orchestrator uses `"auto"`).
`original_ratio = original_width / original_height`; Python `int(...)` on the
positive quotient `1080 / ratio` is truncation, i.e. `Int.floor`. -/
def calculate_target_size (target_mode : String) (original_width original_height : ℕ) :
    ℕ × ℕ :=
  let original_ratio : ℚ := (original_width : ℚ) / (original_height : ℚ)
  if target_mode = "square" then
    (instagram_width, instagram_square_height)
  else if target_mode = "portrait" then
    (instagram_width, instagram_portrait_height)
  else
    if 0.95 ≤ original_ratio ∧ original_ratio ≤ 1.05 then
      (instagram_width, instagram_square_height)
    else if original_ratio < 0.95 then
      (instagram_width, instagram_portrait_height)
    else if original_ratio ≤ max_aspect_ratio then
      (instagram_width, (Int.floor ((instagram_width : ℚ) / original_ratio)).toNat)
    else
      (instagram_width, (Int.floor ((instagram_width : ℚ) / max_aspect_ratio)).toNat)

/-- An inbound image payload, abstracted to what the geometry code reads:
either content that decodes to a `w × h` image, or undecodable content. -/
inductive ImageBytes
  | image (w h : ℕ)
  | malformed
deriving DecidableEq

/-- The dict returned by `ImageProcessor.get_image_info` on success
(the `format` and `mode` entries are irrelevant to every claim and omitted). -/
structure ImageInfo where
  width : ℕ
  height : ℕ
  is_valid_for_instagram : Bool
deriving DecidableEq

/-- The body of `ImageProcessor.get_image_info` up to (not including) its
`except` clause: decoding failure, and the `width / height` division when
`height = 0`, raise. -/
def get_image_info_attempt (img : ImageBytes) : Except Unit ImageInfo :=
  match img with
  | ImageBytes.malformed => Except.error ()
  | ImageBytes.image w h =>
    if h = 0 then Except.error ()
    else
      Except.ok
        { width := w
          height := h
          is_valid_for_instagram :=
            decide (min_aspect_ratio ≤ (w : ℚ) / (h : ℚ) ∧
                    (w : ℚ) / (h : ℚ) ≤ max_aspect_ratio) }

/-- Embedding of `ImageProcessor.get_image_info`: the `except` clause catches
every error, logs it, and returns the empty dict (modelled as `none`). -/
def get_image_info (img : ImageBytes) : Option ImageInfo :=
  match get_image_info_attempt img with
  | Except.ok info => some info
  | Except.error _ => none

/-- Embedding of `ImageProcessor.process_base64_image`, abstracted to the
dimensions of the produced image (both `_resize_and_pad` and `_center_crop`
output an image of exactly the computed target size).  Decoding failure, and
the zero divisions in `_calculate_target_size` / the resize helpers for a
degenerate dimension, raise; its `except` clause logs and re-raises, so the
error is caller-visible.  `crop_mode` and `quality` only affect pixel data. -/
def process_base64_image (target_mode : String) (img : ImageBytes)
    (crop_mode : String) (quality : ℕ) : Except Unit (ℕ × ℕ) :=
  match img with
  | ImageBytes.malformed => Except.error ()
  | ImageBytes.image w h =>
    if w = 0 ∨ h = 0 then Except.error ()
    else Except.ok (calculate_target_size target_mode w h)

/-! ### Quota limiter (redis_limits.py)

Redis stores string values.  A stored value is modelled as either a canonical
integer string (`intVal n` — the only shape the limiter itself ever writes,
via `INCR`) or an arbitrary string (`rawVal s`) written by some other client.
Python `int(value)` / Redis integer parsing of a value is `redis_val_int`;
for raw strings it uses `parseIntStr`, a direct model of decimal-literal
parsing (optional leading minus sign, then decimal digits). -/

def digitsToNat (l : List Char) : ℕ :=
  l.foldl (fun n c => 10 * n + (c.toNat - 48)) 0

def parseIntStr (s : String) : Option ℤ :=
  match s.data with
  | [] => none
  | c :: rest =>
    if c = '-' then
      if rest ≠ [] ∧ rest.all (fun d => d.isDigit) then
        some (-(digitsToNat rest : ℤ))
      else none
    else
      if (c :: rest).all (fun d => d.isDigit) then
        some ((digitsToNat (c :: rest) : ℤ))
      else none

inductive RedisVal
  | intVal (n : ℤ)
  | rawVal (s : String)
deriving DecidableEq

def redis_val_int : RedisVal → Option ℤ
  | RedisVal.intVal n => some n
  | RedisVal.rawVal s => parseIntStr s

/-- The key-value store backing the limiter: the stored strings and the
per-key time-to-live (in seconds) set by `EXPIRE`. -/
structure RedisState where
  data : String → Option RedisVal
  ttl : String → Option ℕ

def setKey (f : String → Option RedisVal) (k : String) (v : RedisVal) :
    String → Option RedisVal :=
  fun k2 => if k2 = k then some v else f k2

def setTtl (f : String → Option ℕ) (k : String) (v : ℕ) : String → Option ℕ :=
  fun k2 => if k2 = k then some v else f k2

/-- Redis `INCR key`: absent key is treated as 0 and set to 1; a present
integer value is incremented; a present non-integer value is an error. -/
def redis_incr (s : RedisState) (key : String) : Except Unit (ℤ × RedisState) :=
  match s.data key with
  | none => Except.ok (1, ⟨setKey s.data key (RedisVal.intVal 1), s.ttl⟩)
  | some v =>
    match redis_val_int v with
    | some n => Except.ok (n + 1, ⟨setKey s.data key (RedisVal.intVal (n + 1)), s.ttl⟩)
    | none => Except.error ()

/-- Embedding of `_today_key(prefix)`: the current UTC date is passed in
explicitly. -/
def today_key (pfx date : String) : String := pfx ++ ":" ++ date

/-- Embedding of `get_daily_post_count`: missing key ⇒ 0; a present value
that `int(...)` cannot parse ⇒ log a warning and return 0. -/
def get_daily_post_count (s : RedisState) (pfx date : String) : ℤ :=
  match s.data (today_key pfx date) with
  | none => 0
  | some v =>
    match redis_val_int v with
    | some n => n
    | none => 0

/-- Embedding of `can_post_today`; `limit` is the configured `DAILY_LIMIT`. -/
def can_post_today (limit : ℤ) (s : RedisState) (pfx date : String) : Bool :=
  get_daily_post_count s pfx date < limit

/-- Embedding of `increment_daily_post`.  `expireOk` injects a backing-store
fault into the `redis.expire` call (the call raising); the source has no
handler around it, so the raised error propagates while the increment done
just before it remains in the store. -/
def increment_daily_post (expireOk : Bool) (s : RedisState) (pfx date : String) :
    Except Unit ℤ × RedisState :=
  let key := today_key pfx date
  match redis_incr s key with
  | Except.error e => (Except.error e, s)
  | Except.ok (count, s1) =>
    if count = 1 then
      if expireOk then (Except.ok count, ⟨s1.data, setTtl s1.ttl key (60 * 60 * 24)⟩)
      else (Except.error (), s1)
    else (Except.ok count, s1)

/-- Runs `n` successive `increment_daily_post` calls (stopping at the first
propagated error), used to state the "Nth call returns N" property. -/
def applyIncrs (expireOk : Bool) (pfx date : String) :
    ℕ → RedisState → Except Unit ℤ × RedisState
  | 0, s => (Except.ok 0, s)
  | n + 1, s =>
    match applyIncrs expireOk pfx date n s with
    | (Except.ok _, s1) => increment_daily_post expireOk s1 pfx date
    | (Except.error e, s1) => (Except.error e, s1)

/-! ### Orchestrator (main.py, class AutoUploader)

The external collaborators invoked by `_handle_payload` are abstracted as an
oracle `Env` fixing, for the one event being processed, the outcome of each
external call and whether each handle was initialised in `start()`.  The
handler is translated to a pure function returning its control-flow outcome
(`Except.ok` = returned normally, `Except.error` = raised to the caller) and
the list of external calls it performed, in order. -/

/-- One external side-effecting call made by the pipeline. -/
inductive Effect
  | quotaRead
  | inspect
  | normalize
  | storeUpload (img : String)
  | igPublish (url : String)
  | quotaIncrement
  | videoPublish
  | videoCleanup
deriving DecidableEq

/-- The `extracted_data` dict of a `job_vacancy` payload (fields other than
`is_job_vacancy` are only forwarded to the external caption builder). -/
structure Extracted where
  is_job_vacancy : Bool
  position : Option String := none
  email : Option (List String) := none
  gender_required : Option String := none
deriving DecidableEq

/-- The inbound payload dict, restricted to the keys `_handle_payload` reads.
`video_path` models `payload.get("video", {}).get("path")`; a missing
`video` dict gives `none` just like a missing `path`.  `none` for
`extracted_data` also covers an empty (falsy) dict. -/
structure Payload where
  type : Option String
  video_path : Option String
  image : Option String
  extracted_data : Option Extracted
deriving DecidableEq

/-- Outcomes of the external calls for the current event.  `Except.error`
means the call raised.  `igImageResult` is `result.get("id")` of
`InstagramUploader.upload_image`; `inspectInfo` is the dict returned by
`get_image_info` (`none` = the empty dict it returns after a caught decode
error); `igInit` / `storageInit` say whether `self.ig_uploader` /
`self.storage` are non-`None`. -/
structure Env where
  canPost : Bool
  inspectInfo : Option ImageInfo
  processResult : Except Unit String
  uploadResult : Except Unit String
  igImageResult : Except Unit (Option String)
  igInit : Bool
  storageInit : Bool
  videoPublishOk : Bool
  cleanupOk : Bool

/-- Embedding of `AutoUploader._validate_job_vacancy_payload`.  Python
truthiness of `extracted` (missing or empty dict) and of
`extracted.get("is_job_vacancy")` and `payload.get("image")` (missing,
`False`, or empty string) is modelled case by case. -/
def validate_job_vacancy_payload (p : Payload) : Option Extracted :=
  if p.type ≠ some "job_vacancy" then none
  else
    match p.extracted_data with
    | none => none
    | some ex =>
      if ex.is_job_vacancy = false then none
      else
        match p.image with
        | none => none
        | some img => if img = "" then none else some ex

/-- Embedding of `AutoUploader._handle_video_payload`.  The Instagram upload
sits in a `try` whose `except Exception` only logs; the `finally` block wraps
`storage.clean_video` in its own `try/except` that only logs.  Either
handle being uninitialised skips the corresponding call. -/
def handle_video_payload (env : Env) : Except Unit Unit × List Effect :=
  let tryResult : Except Unit Unit :=
    if env.igInit then
      (if env.videoPublishOk then Except.ok () else Except.error ())
    else Except.ok ()
  let publishEffects : List Effect :=
    if env.igInit then [Effect.videoPublish] else []
  let afterCatch : Except Unit Unit :=
    match tryResult with
    | Except.ok _ => Except.ok ()
    | Except.error _ => Except.ok ()
  let cleanupResult : Except Unit Unit :=
    if env.storageInit then
      (if env.cleanupOk then Except.ok () else Except.error ())
    else Except.ok ()
  let cleanupEffects : List Effect :=
    if env.storageInit then [Effect.videoCleanup] else []
  let final : Except Unit Unit :=
    match cleanupResult with
    | Except.ok _ => afterCatch
    | Except.error _ => afterCatch
  (final, publishEffects ++ cleanupEffects)

/-- STEP 1 of `AutoUploader._handle_payload` for a validated `job_vacancy`
payload with image string `img0`: inspect the image and, when it is not
valid for Instagram, normalize it.  `self.image_processor` is always
constructed in `start()`, so the step always runs.  The step sits in a
`try/except` that logs and keeps the original image on failure; a missing
`is_valid_for_instagram` key in an empty info dict is falsy, so
normalization is also attempted after a failed inspect.  Returns the image
carried forward and the external calls made. -/
def step1_adapt (env : Env) (img0 : String) : String × List Effect :=
  let isValid : Bool :=
    match env.inspectInfo with
    | some info => info.is_valid_for_instagram
    | none => false
  if isValid then (img0, [Effect.inspect])
  else
    match env.processResult with
    | Except.ok processed => (processed, [Effect.inspect, Effect.normalize])
    | Except.error _ => (img0, [Effect.inspect, Effect.normalize])

/-- STEPs 1–3 of `AutoUploader._handle_payload` for a validated
`job_vacancy` payload (quota already allowed).  STEP 2 uploads to storage:
it returns on a missing storage handle or a raised upload.  STEP 3 requires
the uploader handle and a truthy URL, and increments the daily quota only
under `result.get("id")`; its `except` clause only logs. -/
def handle_job_vacancy (env : Env) (img0 : String) : Except Unit Unit × List Effect :=
  let img1 := (step1_adapt env img0).1
  let fx1 := (step1_adapt env img0).2
  if env.storageInit = false then
    (Except.ok (), fx1)
  else
    match env.uploadResult with
    | Except.error _ => (Except.ok (), fx1 ++ [Effect.storeUpload img1])
    | Except.ok url =>
      let fx2 := fx1 ++ [Effect.storeUpload img1]
      if env.igInit = true ∧ url ≠ "" then
        match env.igImageResult with
        | Except.error _ => (Except.ok (), fx2 ++ [Effect.igPublish url])
        | Except.ok (some _) =>
          (Except.ok (), fx2 ++ [Effect.igPublish url, Effect.quotaIncrement])
        | Except.ok none => (Except.ok (), fx2 ++ [Effect.igPublish url])
      else (Except.ok (), fx2)

/-- Embedding of `AutoUploader._handle_payload`.  A `video_ready` payload
with a truthy path is handled by `handle_video_payload`; control then falls
through to `_validate_job_vacancy_payload`, which rejects the
`video_ready` type, so the handler returns.  Otherwise validation gates the
quota read (`can_post_today`, whose boolean outcome is `env.canPost`),
the redundant `image is None` re-check, and the job-vacancy steps
(`step1_adapt` then `handle_job_vacancy`). -/
def handle_payload (env : Env) (p : Payload) : Except Unit Unit × List Effect :=
  if p.type = some "video_ready" then
    match p.video_path with
    | none => (Except.ok (), [])
    | some path =>
      if path = "" then (Except.ok (), [])
      else
        match (handle_video_payload env).1 with
        | Except.error e => (Except.error e, (handle_video_payload env).2)
        | Except.ok _ => (Except.ok (), (handle_video_payload env).2)
  else
    match validate_job_vacancy_payload p with
    | none => (Except.ok (), [])
    | some _ =>
      if env.canPost = false then (Except.ok (), [Effect.quotaRead])
      else
        match p.image with
        | none => (Except.ok (), [Effect.quotaRead])
        | some img0 =>
          ((handle_job_vacancy env img0).1,
            Effect.quotaRead :: (handle_job_vacancy env img0).2)

/-! ### Concrete fixtures used by witness theorems -/

def emptyRedis : RedisState := ⟨fun _ => none, fun _ => none⟩

def corruptRedis : RedisState :=
  ⟨fun k => if k = "ig:d" then some (RedisVal.rawVal "abc") else none, fun _ => none⟩

def envAllOk : Env :=
  { canPost := true
    inspectInfo := some ⟨1200, 1200, true⟩
    processResult := Except.ok "adapted"
    uploadResult := Except.ok "url"
    igImageResult := Except.ok (some "mid")
    igInit := true
    storageInit := true
    videoPublishOk := true
    cleanupOk := true }

def envAdaptFail : Env :=
  { envAllOk with inspectInfo := none, processResult := Except.error () }

def envInvalidInfo : Env :=
  { envAllOk with inspectInfo := some ⟨1200, 400, false⟩ }

def envCleanupFail : Env :=
  { envAllOk with videoPublishOk := false, cleanupOk := false }

def jobPayload : Payload :=
  { type := some "job_vacancy", video_path := none, image := some "img",
    extracted_data := some { is_job_vacancy := true } }

def nonJobPayload : Payload :=
  { type := some "job_vacancy", video_path := none, image := some "img",
    extracted_data := some { is_job_vacancy := false } }

def videoPayload : Payload :=
  { type := some "video_ready", video_path := some "https://cdn/v.mp4",
    image := none, extracted_data := none }

/-! ## Claims -/

/-- Claim C1, counterexample.  The claim states that in auto mode an aspect
ratio in `(1.05, 1.91]` yields height `round(1080 / r)`.  At a 1300×1000
image (`r = 1.3`), `round(1080 / 1.3) = 831`, but the code computes
`int(1080 / 1.3) = 830` (truncation), so the claim as stated is false. -/
theorem calculate_target_size_round_cex :
    calculate_target_size "auto" 1300 1000 = (1080, 830) ∧
    round ((1080 : ℚ) / ((1300 : ℚ) / (1000 : ℚ))) = (831 : ℤ) := by
  constructor
  · unfold calculate_target_size
    simp only [show ("auto" = "square") = False by simp,
      show ("auto" = "portrait") = False by simp, if_false]
    norm_num [instagram_width, instagram_square_height, instagram_portrait_height,
      max_aspect_ratio]
    rfl
  · rw [round_eq, Int.floor_eq_iff]
    norm_num

/-- Claim C1 (amended).  For every image with positive aspect ratio
`r = w / h` processed in auto mode, `_calculate_target_size` selects the
target canvas by exhaustive, mutually exclusive bands: `r < 0.95` gives
1080×1350; `0.95 ≤ r ≤ 1.05` gives 1080×1080; `1.05 < r ≤ 1.91` gives width
1080 and height `⌊1080 / r⌋` (Python `int` truncation, not rounding);
`r > 1.91` gives width 1080 and height `int(1080 / 1.91) = 565`; boundary
values belong to the bands as written. -/
theorem calculate_target_size_bands (w h : ℕ) (hw : 0 < w) (hh : 0 < h) :
    ((w : ℚ) / (h : ℚ) < 0.95 →
      calculate_target_size "auto" w h = (1080, 1350)) ∧
    (0.95 ≤ (w : ℚ) / (h : ℚ) ∧ (w : ℚ) / (h : ℚ) ≤ 1.05 →
      calculate_target_size "auto" w h = (1080, 1080)) ∧
    (1.05 < (w : ℚ) / (h : ℚ) ∧ (w : ℚ) / (h : ℚ) ≤ 1.91 →
      calculate_target_size "auto" w h =
        (1080, (Int.floor ((1080 : ℚ) / ((w : ℚ) / (h : ℚ)))).toNat)) ∧
    (1.91 < (w : ℚ) / (h : ℚ) →
      calculate_target_size "auto" w h = (1080, 565)) := by
  refine ⟨fun hr => ?_, fun hr => ?_, fun hr => ?_, fun hr => ?_⟩ <;>
    (unfold calculate_target_size;
     simp only [show ("auto" = "square") = False by simp,
       show ("auto" = "portrait") = False by simp, if_false])
  · rw [if_neg (fun hc => absurd hr (not_lt.mpr hc.1)), if_pos hr]; rfl
  · rw [if_pos hr]; rfl
  · have hc1 : ¬ ((0.95 : ℚ) ≤ (w : ℚ) / (h : ℚ) ∧ (w : ℚ) / (h : ℚ) ≤ 1.05) := by
      rintro ⟨-, hb⟩; linarith [hr.1]
    have hc2 : ¬ ((w : ℚ) / (h : ℚ) < 0.95) := by
      have := hr.1; intro hb; linarith
    rw [if_neg hc1, if_neg hc2,
      if_pos (show (w : ℚ) / (h : ℚ) ≤ max_aspect_ratio from hr.2)]
    norm_num [instagram_width]
  · have hc1 : ¬ ((0.95 : ℚ) ≤ (w : ℚ) / (h : ℚ) ∧ (w : ℚ) / (h : ℚ) ≤ 1.05) := by
      rintro ⟨-, hb⟩; linarith
    have hc2 : ¬ ((w : ℚ) / (h : ℚ) < 0.95) := by intro hb; linarith
    have hc3 : ¬ ((w : ℚ) / (h : ℚ) ≤ max_aspect_ratio) := by
      rw [max_aspect_ratio]; exact not_le.mpr hr
    rw [if_neg hc1, if_neg hc2, if_neg hc3]
    norm_num [instagram_width, max_aspect_ratio]
    rfl

/-- Claim C1 (amended), witness: a 1300×1000 image falls in the third band
and gets canvas `1080 × ⌊1080 / 1.3⌋`. -/
theorem calculate_target_size_bands_witness :
    calculate_target_size "auto" 1300 1000 =
      (1080, (Int.floor ((1080 : ℚ) / ((1300 : ℚ) / (1000 : ℚ)))).toNat) := by
  have hb : (1.05 : ℚ) < (1300 : ℕ) / ((1000 : ℕ) : ℚ) ∧
      ((1300 : ℕ) : ℚ) / ((1000 : ℕ) : ℚ) ≤ 1.91 := by norm_num
  have := (calculate_target_size_bands 1300 1000 (by norm_num) (by norm_num)).2.2.1 hb
  rw [this]
  norm_num


/-- One `increment_daily_post` on a fresh key: the counter becomes 1 and the
24-hour expiry is set. -/
theorem increment_fresh (pfx date : String) (s : RedisState)
    (h : s.data (today_key pfx date) = none) :
    (increment_daily_post true s pfx date).1 = Except.ok 1 ∧
    (increment_daily_post true s pfx date).2.data (today_key pfx date) =
      some (RedisVal.intVal 1) ∧
    (increment_daily_post true s pfx date).2.ttl (today_key pfx date) =
      some (60 * 60 * 24) := by
  simp [increment_daily_post, redis_incr, h, setKey, setTtl]

/-- One `increment_daily_post` on a key already holding `n ≥ 1`: the counter
becomes `n + 1` and the expiry branch is not taken. -/
theorem increment_step (pfx date : String) (s : RedisState) (n : ℤ) (hn : 1 ≤ n)
    (h : s.data (today_key pfx date) = some (RedisVal.intVal n)) :
    (increment_daily_post true s pfx date).1 = Except.ok (n + 1) ∧
    (increment_daily_post true s pfx date).2.data (today_key pfx date) =
      some (RedisVal.intVal (n + 1)) ∧
    (increment_daily_post true s pfx date).2.ttl = s.ttl := by
  have hne : ¬ (n + 1 = 1) := by omega
  simp [increment_daily_post, redis_incr, redis_val_int, h, hne, setKey]

/-- After `n ≥ 1` calls starting from a fresh key, the last call returned `n`,
the stored counter is `n`, and the expiry set by the first call persists. -/
theorem applyIncrs_fresh (pfx date : String) (s : RedisState)
    (h : s.data (today_key pfx date) = none) (n : ℕ) (hn : 1 ≤ n) :
    (applyIncrs true pfx date n s).1 = Except.ok (n : ℤ) ∧
    (applyIncrs true pfx date n s).2.data (today_key pfx date) =
      some (RedisVal.intVal (n : ℤ)) ∧
    (applyIncrs true pfx date n s).2.ttl (today_key pfx date) =
      some (60 * 60 * 24) := by
  induction n with
  | zero => omega
  | succ m ih =>
    by_cases hm : m = 0
    · subst hm
      have h1 := increment_fresh pfx date s h
      simp only [applyIncrs]
      simpa using h1
    · have hm1 : 1 ≤ m := by omega
      obtain ⟨h1, h2, h3⟩ := ih hm1
      rcases hsplit : applyIncrs true pfx date m s with ⟨r1, s1⟩
      rw [hsplit] at h1 h2 h3
      simp only at h1 h2 h3
      have hstep := increment_step pfx date s1 (m : ℤ) (by exact_mod_cast hm1) h2
      simp only [applyIncrs, hsplit, h1]
      push_cast
      refine ⟨hstep.1, hstep.2.1, ?_⟩
      rw [hstep.2.2, h3]

/-- Claim C2: for a fresh (absent) key, the first `increment_daily_post` call
returns 1 and sets a 24-hour (`60*60*24` seconds) expiry on the key; the Nth
call returns N; `can_post_today` reads the current count treating a missing
key as 0 and returns true iff the count is below the configured daily
limit. -/
theorem quota_counter_spec (limit : ℤ) (s : RedisState) (pfx date : String)
    (hfresh : s.data (today_key pfx date) = none) :
    ((increment_daily_post true s pfx date).1 = Except.ok 1 ∧
     (increment_daily_post true s pfx date).2.ttl (today_key pfx date) =
       some (60 * 60 * 24)) ∧
    (∀ n : ℕ, 1 ≤ n → (applyIncrs true pfx date n s).1 = Except.ok (n : ℤ)) ∧
    (∀ t : RedisState, t.data (today_key pfx date) = none →
      get_daily_post_count t pfx date = 0) ∧
    (∀ t : RedisState,
      can_post_today limit t pfx date = true ↔
        get_daily_post_count t pfx date < limit) := by
  refine ⟨⟨(increment_fresh pfx date s hfresh).1,
           (increment_fresh pfx date s hfresh).2.2⟩,
         fun n hn => (applyIncrs_fresh pfx date s hfresh n hn).1,
         fun t ht => by simp [get_daily_post_count, ht],
         fun t => by simp [can_post_today]⟩

/-- Claim C2, witness: from the empty store the third call returns 3, and the
first call set the 24h expiry. -/
theorem quota_counter_spec_witness :
    (applyIncrs true "ig" "d" 3 emptyRedis).1 = Except.ok ((3 : ℕ) : ℤ) ∧
    (increment_daily_post true emptyRedis "ig" "d").2.ttl (today_key "ig" "d") =
      some (60 * 60 * 24) :=
  ⟨(quota_counter_spec 2 emptyRedis "ig" "d" rfl).2.1 3 (by norm_num),
   (quota_counter_spec 2 emptyRedis "ig" "d" rfl).1.2⟩

/-- Claim C8, counterexample.  The claim states a failed expiry-set inside
`increment_daily_post` is logged and the counter value is still returned.
The source has no handler around `redis.expire`: on a fresh key with the
expire call failing, the call raises to the caller instead of returning 1. -/
theorem increment_expire_failure_cex :
    (increment_daily_post false emptyRedis "instagram:daily_posts" "2025-01-01").1 =
      Except.error () := by rfl

/-- Claim C8 (amended): a failure of the expiry-set step inside
`increment_daily_post` after the first increment of a fresh key is NOT
caught: the error propagates to the caller (no counter value is returned),
while the increment itself persists in the store. -/
theorem increment_expire_failure (pfx date : String) (s : RedisState)
    (h : s.data (today_key pfx date) = none) :
    (increment_daily_post false s pfx date).1 = Except.error () ∧
    (increment_daily_post false s pfx date).2.data (today_key pfx date) =
      some (RedisVal.intVal 1) := by
  simp [increment_daily_post, redis_incr, h, setKey]

/-- Claim C8 (amended), witness. -/
theorem increment_expire_failure_witness :
    (increment_daily_post false emptyRedis "ig" "d").1 = Except.error () ∧
    (increment_daily_post false emptyRedis "ig" "d").2.data (today_key "ig" "d") =
      some (RedisVal.intVal 1) :=
  increment_expire_failure "ig" "d" emptyRedis rfl

/-- Claim C10: a present but non-integer-parseable value at the day key makes
`get_daily_post_count` return 0 instead of raising, so `can_post_today`
treats a corrupted counter as if no posts had been made (true whenever the
configured limit is positive). -/
theorem corrupted_counter_resets (limit : ℤ) (s : RedisState) (pfx date v : String)
    (hv : s.data (today_key pfx date) = some (RedisVal.rawVal v))
    (hp : parseIntStr v = none) :
    get_daily_post_count s pfx date = 0 ∧
    (0 < limit → can_post_today limit s pfx date = true) := by
  have h0 : get_daily_post_count s pfx date = 0 := by
    simp [get_daily_post_count, hv, redis_val_int, hp]
  refine ⟨h0, fun hl => ?_⟩
  simp [can_post_today, h0]
  omega

/-- Claim C10, witness: a store holding the unparseable string "abc" at the
day key. -/
theorem corrupted_counter_resets_witness :
    get_daily_post_count corruptRedis "ig" "d" = 0 ∧
    (0 < (5 : ℤ) → can_post_today 5 corruptRedis "ig" "d" = true) :=
  corrupted_counter_resets 5 corruptRedis "ig" "d" "abc" (by rfl) (by rfl)

/-! ### Orchestrator lemmas -/

/-- STEP 1 performs `inspect` alone, or `inspect` then `normalize`. -/
theorem step1_adapt_effects (env : Env) (img0 : String) :
    (step1_adapt env img0).2 = [Effect.inspect] ∨
    (step1_adapt env img0).2 = [Effect.inspect, Effect.normalize] := by
  rcases hins : env.inspectInfo with _ | info
  · rcases hpr : env.processResult with _ | proc <;> simp [step1_adapt, hins, hpr]
  · cases hb : info.is_valid_for_instagram <;>
      rcases hpr : env.processResult with _ | proc <;>
        simp [step1_adapt, hins, hb, hpr]

/-- When normalization raised, STEP 1 carries the original image forward. -/
theorem step1_adapt_orig (env : Env) (img0 : String)
    (h : env.processResult = Except.error ()) :
    (step1_adapt env img0).1 = img0 := by
  rcases hins : env.inspectInfo with _ | info
  · simp [step1_adapt, hins, h]
  · cases hb : info.is_valid_for_instagram <;> simp [step1_adapt, hins, hb, h]

/-- When inspect returned a proper info dict, STEP 1 attempts `normalize`
exactly when that dict says the image is invalid. -/
theorem step1_normalize_iff (env : Env) (img0 : String) (info : ImageInfo)
    (h : env.inspectInfo = some info) :
    (Effect.normalize ∈ (step1_adapt env img0).2 ↔
      info.is_valid_for_instagram = false) := by
  cases hb : info.is_valid_for_instagram <;>
    rcases hpr : env.processResult with _ | proc <;>
      simp [step1_adapt, h, hb, hpr]

/-- The video handler `_handle_video_payload` never raises to its caller. -/
theorem handle_video_payload_ok (env : Env) :
    (handle_video_payload env).1 = Except.ok () := by
  cases hig : env.igInit <;> cases hvp : env.videoPublishOk <;>
    cases hst : env.storageInit <;> cases hc : env.cleanupOk <;>
      simp [handle_video_payload, hig, hvp, hst, hc]

/-- With the storage handle initialised, the video cleanup call is made. -/
theorem handle_video_payload_cleanup (env : Env) (h : env.storageInit = true) :
    Effect.videoCleanup ∈ (handle_video_payload env).2 := by
  cases hig : env.igInit <;> simp [handle_video_payload, hig, h]

/-- The video handler makes no calls other than publish and cleanup. -/
theorem handle_video_payload_effects (env : Env) (e : Effect)
    (h : e ∈ (handle_video_payload env).2) :
    e = Effect.videoPublish ∨ e = Effect.videoCleanup := by
  cases hig : env.igInit <;> cases hst : env.storageInit <;>
    simp [handle_video_payload, hig, hst] at h <;> tauto

/-- The job-vacancy steps never raise to their caller. -/
theorem handle_job_vacancy_ok (env : Env) (img0 : String) :
    (handle_job_vacancy env img0).1 = Except.ok () := by
  unfold handle_job_vacancy
  by_cases hst : env.storageInit = false
  · simp [hst]
  · rw [if_neg hst]
    rcases hup : env.uploadResult with _ | url
    · simp
    · dsimp only
      by_cases hig : (env.igInit = true ∧ url ≠ "")
      · rw [if_pos hig]
        rcases hir : env.igImageResult with _ | mid
        · simp
        · rcases mid with _ | id <;> simp
      · rw [if_neg hig]

/-- With the storage handle initialised, STEP 2 attempts the upload of the
image produced by STEP 1 (whether or not the upload then succeeds). -/
theorem storeUpload_mem_job (env : Env) (img0 : String)
    (hst : env.storageInit = true) :
    Effect.storeUpload ((step1_adapt env img0).1) ∈ (handle_job_vacancy env img0).2 := by
  unfold handle_job_vacancy
  rw [if_neg (by simp [hst])]
  rcases hup : env.uploadResult with _ | url
  · simp
  · dsimp only
    by_cases hig : (env.igInit = true ∧ url ≠ "")
    · rw [if_pos hig]
      rcases hir : env.igImageResult with _ | mid
      · simp
      · rcases mid with _ | id <;> simp
    · rw [if_neg hig]; simp

/-- Normalization is attempted by the job pipeline iff STEP 1 attempts it. -/
theorem normalize_mem_job_iff (env : Env) (img0 : String) :
    (Effect.normalize ∈ (handle_job_vacancy env img0).2 ↔
      Effect.normalize ∈ (step1_adapt env img0).2) := by
  unfold handle_job_vacancy
  by_cases hst : env.storageInit = false
  · simp [hst]
  · rw [if_neg hst]
    rcases hup : env.uploadResult with _ | url
    · simp
    · dsimp only
      by_cases hig : (env.igInit = true ∧ url ≠ "")
      · rw [if_pos hig]
        rcases hir : env.igImageResult with _ | mid
        · simp
        · rcases mid with _ | id <;> simp
      · rw [if_neg hig]; simp

/-- The quota increment occurs in the job-vacancy steps only when the storage
upload returned a truthy URL, the uploader handle exists, and the Instagram
publish returned a media id. -/
theorem quotaIncrement_mem_job (env : Env) (img0 : String)
    (h : Effect.quotaIncrement ∈ (handle_job_vacancy env img0).2) :
    env.storageInit = true ∧ env.igInit = true ∧
    (∃ url, env.uploadResult = Except.ok url ∧ url ≠ "") ∧
    (∃ id, env.igImageResult = Except.ok (some id)) := by
  have hfx := step1_adapt_effects env img0
  unfold handle_job_vacancy at h
  by_cases hst : env.storageInit = false
  · rw [if_pos hst] at h
    rcases hfx with hf | hf <;> rw [hf] at h <;> simp at h
  · have hst2 : env.storageInit = true := by
      revert hst; cases env.storageInit <;> simp
    rw [if_neg hst] at h
    rcases hup : env.uploadResult with _ | url <;> rw [hup] at h <;> dsimp only at h
    · rcases hfx with hf | hf <;> rw [hf] at h <;> simp at h
    · by_cases hig : (env.igInit = true ∧ url ≠ "")
      · rw [if_pos hig] at h
        rcases hir : env.igImageResult with _ | mid
        · rw [hir] at h
          rcases hfx with hf | hf <;> rw [hf] at h <;> simp at h
        · rcases mid with _ | id
          · rw [hir] at h
            rcases hfx with hf | hf <;> rw [hf] at h <;> simp at h
          · exact ⟨hst2, hig.1, ⟨url, rfl, hig.2⟩, ⟨id, rfl⟩⟩
      · rw [if_neg hig] at h
        rcases hfx with hf | hf <;> rw [hf] at h <;> simp at h

/-- Claim C3: the daily quota counter is incremented only after a publish
call confirmed success with a media id — for any payload, if the pipeline
performed the increment, then the quota check had allowed posting, the
storage upload had returned a (truthy) public URL, the uploader handle
existed, and the Instagram publish returned a media id.  Failed or skipped
attempts, and publish responses without a media id, never increment. -/
theorem quota_increment_only_on_success (env : Env) (p : Payload)
    (h : Effect.quotaIncrement ∈ (handle_payload env p).2) :
    env.canPost = true ∧ env.storageInit = true ∧ env.igInit = true ∧
    (∃ url, env.uploadResult = Except.ok url ∧ url ≠ "") ∧
    (∃ id, env.igImageResult = Except.ok (some id)) := by
  unfold handle_payload at h
  by_cases ht : p.type = some "video_ready"
  · rw [if_pos ht] at h
    rcases hv : p.video_path with _ | path <;> rw [hv] at h <;> dsimp only at h
    · simp at h
    · by_cases hp : path = ""
      · rw [if_pos hp] at h; simp at h
      · rw [if_neg hp, handle_video_payload_ok env] at h
        dsimp only at h
        have := handle_video_payload_effects env Effect.quotaIncrement h
        simp at this
  · rw [if_neg ht] at h
    rcases hval : validate_job_vacancy_payload p with _ | ex <;>
      rw [hval] at h <;> dsimp only at h
    · simp at h
    · by_cases hq : env.canPost = false
      · rw [if_pos hq] at h; simp at h
      · have hq2 : env.canPost = true := by
          revert hq; cases env.canPost <;> simp
        rw [if_neg hq] at h
        rcases hi : p.image with _ | img0 <;> rw [hi] at h <;> dsimp only at h
        · simp at h
        · simp only [List.mem_cons] at h
          rcases h with h | h
          · exact absurd h (by simp)
          · obtain ⟨a, b, c, d⟩ := quotaIncrement_mem_job env img0 h
            exact ⟨hq2, a, b, c, d⟩

/-- Claim C3, witness: the all-success run does increment, and the theorem
recovers the success facts from it. -/
theorem quota_increment_only_on_success_witness :
    envAllOk.canPost = true ∧ envAllOk.storageInit = true ∧ envAllOk.igInit = true ∧
    (∃ url, envAllOk.uploadResult = Except.ok url ∧ url ≠ "") ∧
    (∃ id, envAllOk.igImageResult = Except.ok (some id)) :=
  quota_increment_only_on_success envAllOk jobPayload (by decide)

/-- Claim C4: for every VideoReady payload with a non-empty video path (and
the storage handle initialised, which `start()` always does), the cleanup
call is made regardless of the publish outcome — the environment leaves the
publish result and even the cleanup result arbitrary — and the handler
returns normally, never propagating a cleanup failure. -/
theorem video_cleanup_always_runs (env : Env) (p : Payload) (path : String)
    (htype : p.type = some "video_ready") (hpath : p.video_path = some path)
    (hne : path ≠ "") (hst : env.storageInit = true) :
    (handle_payload env p).1 = Except.ok () ∧
    Effect.videoCleanup ∈ (handle_payload env p).2 := by
  unfold handle_payload
  rw [if_pos htype, hpath]
  dsimp only
  rw [if_neg hne, handle_video_payload_ok env]
  exact ⟨rfl, handle_video_payload_cleanup env hst⟩

/-- Claim C4, witness: a run where the video publish raises and the cleanup
itself fails still performs the cleanup call and returns normally. -/
theorem video_cleanup_always_runs_witness :
    (handle_payload envCleanupFail videoPayload).1 = Except.ok () ∧
    Effect.videoCleanup ∈ (handle_payload envCleanupFail videoPayload).2 :=
  video_cleanup_always_runs envCleanupFail videoPayload "https://cdn/v.mp4"
    rfl rfl (by decide) rfl

/-- Claim C5: a `job_vacancy` payload whose extracted data is missing, whose
`is_job_vacancy` flag is false, or whose image is missing or empty, is
dropped before any external call: the handler returns normally with an empty
call trace (no inspect, no normalize, no upload, no publish, no quota read
or increment). -/
theorem job_vacancy_dropped (env : Env) (p : Payload)
    (htype : p.type = some "job_vacancy")
    (hbad : p.extracted_data = none ∨
      (∃ ex, p.extracted_data = some ex ∧ ex.is_job_vacancy = false) ∨
      p.image = none ∨ p.image = some "") :
    handle_payload env p = (Except.ok (), []) := by
  have hval : validate_job_vacancy_payload p = none := by
    unfold validate_job_vacancy_payload
    rw [if_neg (fun hc => hc htype)]
    rcases hbad with hb | ⟨ex, hex, hflag⟩ | hb | hb
    · simp [hb]
    · simp [hex, hflag]
    · rcases hed : p.extracted_data with _ | ex
      · simp
      · cases hflag : ex.is_job_vacancy <;> simp [hflag, hb]
    · rcases hed : p.extracted_data with _ | ex
      · simp
      · cases hflag : ex.is_job_vacancy <;> simp [hflag, hb]
  have ht2 : ¬ (p.type = some "video_ready") := by rw [htype]; simp
  unfold handle_payload
  rw [if_neg ht2, hval]

/-- Claim C5, witness: a payload with `is_job_vacancy = false` produces an
empty call trace. -/
theorem job_vacancy_dropped_witness :
    handle_payload envAllOk nonJobPayload = (Except.ok (), []) :=
  job_vacancy_dropped envAllOk nonJobPayload rfl
    (Or.inr (Or.inl ⟨_, rfl, rfl⟩))

/-- Claim C6: if the image-adaptation stage fails (normalization raised, with
inspect free to have failed or reported invalid), the pipeline for a
validated job-vacancy payload does not abort: the handler returns normally
and the storage-upload stage is reached with the original image bytes. -/
theorem adaptation_failure_nonfatal (env : Env) (p : Payload) (ex : Extracted)
    (img0 : String)
    (hval : validate_job_vacancy_payload p = some ex)
    (himg : p.image = some img0)
    (hq : env.canPost = true) (hst : env.storageInit = true)
    (hproc : env.processResult = Except.error ()) :
    (handle_payload env p).1 = Except.ok () ∧
    Effect.storeUpload img0 ∈ (handle_payload env p).2 := by
  have htype : p.type = some "job_vacancy" := by
    by_contra hc
    unfold validate_job_vacancy_payload at hval
    rw [if_pos hc] at hval
    exact Option.noConfusion hval
  have ht2 : ¬ (p.type = some "video_ready") := by rw [htype]; simp
  unfold handle_payload
  rw [if_neg ht2, hval]
  dsimp only
  rw [if_neg (by simp [hq]), himg]
  dsimp only
  refine ⟨handle_job_vacancy_ok env img0, ?_⟩
  have hmem := storeUpload_mem_job env img0 hst
  rw [step1_adapt_orig env img0 hproc] at hmem
  exact List.mem_cons_of_mem _ hmem

/-- Claim C6, witness: with inspect failing and normalize raising, the
original image `"img"` is still uploaded. -/
theorem adaptation_failure_nonfatal_witness :
    (handle_payload envAdaptFail jobPayload).1 = Except.ok () ∧
    Effect.storeUpload "img" ∈ (handle_payload envAdaptFail jobPayload).2 :=
  adaptation_failure_nonfatal envAdaptFail jobPayload
    { is_job_vacancy := true } "img" (by decide) rfl rfl rfl rfl

/-- Claim C7: `get_image_info` classifies an image as valid for Instagram iff
its aspect ratio `w / h` lies in `[0.8, 1.91]`; both boundary ratios (4×5
and 191×100 images) are valid; and the orchestrator attempts `normalize`
iff the info dict returned by inspect reports the image invalid. -/
theorem inspect_validity_and_normalize_policy :
    (∀ w h : ℕ, 0 < h → ∀ info, get_image_info (ImageBytes.image w h) = some info →
      (info.is_valid_for_instagram = true ↔
        ((0.8 : ℚ) ≤ (w : ℚ) / (h : ℚ) ∧ (w : ℚ) / (h : ℚ) ≤ (1.91 : ℚ)))) ∧
    (∀ info, get_image_info (ImageBytes.image 4 5) = some info →
      info.is_valid_for_instagram = true) ∧
    (∀ info, get_image_info (ImageBytes.image 191 100) = some info →
      info.is_valid_for_instagram = true) ∧
    (∀ (env : Env) (img0 : String) (info : ImageInfo), env.inspectInfo = some info →
      (Effect.normalize ∈ (handle_job_vacancy env img0).2 ↔
        info.is_valid_for_instagram = false)) := by
  have c1 : ∀ w h : ℕ, 0 < h →
      ∀ info, get_image_info (ImageBytes.image w h) = some info →
      (info.is_valid_for_instagram = true ↔
        ((0.8 : ℚ) ≤ (w : ℚ) / (h : ℚ) ∧ (w : ℚ) / (h : ℚ) ≤ (1.91 : ℚ))) := by
    intro w h hh info hinfo
    unfold get_image_info get_image_info_attempt at hinfo
    dsimp only at hinfo
    rw [if_neg (show ¬ h = 0 by omega)] at hinfo
    dsimp only at hinfo
    simp only [Option.some.injEq] at hinfo
    subst hinfo
    simp [min_aspect_ratio, max_aspect_ratio]
  refine ⟨c1, fun info h => ?_, fun info h => ?_, fun env img0 info h =>
    (normalize_mem_job_iff env img0).trans (step1_normalize_iff env img0 info h)⟩
  · exact (c1 4 5 (by norm_num) info h).mpr (by norm_num)
  · exact (c1 191 100 (by norm_num) info h).mpr (by norm_num)

/-- Claim C7, witness: the boundary ratio 4/5 is valid, and a run whose
inspect reports invalid attempts normalization. -/
theorem inspect_validity_and_normalize_policy_witness :
    ((⟨4, 5, true⟩ : ImageInfo).is_valid_for_instagram = true ↔
      ((0.8 : ℚ) ≤ ((4 : ℕ) : ℚ) / ((5 : ℕ) : ℚ) ∧
        ((4 : ℕ) : ℚ) / ((5 : ℕ) : ℚ) ≤ (1.91 : ℚ))) ∧
    (Effect.normalize ∈ (handle_job_vacancy envInvalidInfo "img").2 ↔
      (⟨1200, 400, false⟩ : ImageInfo).is_valid_for_instagram = false) := by
  have h45 : get_image_info (ImageBytes.image 4 5) = some ⟨4, 5, true⟩ := by
    simp [get_image_info, get_image_info_attempt, min_aspect_ratio, max_aspect_ratio]
    norm_num
  exact ⟨inspect_validity_and_normalize_policy.1 4 5 (by norm_num) ⟨4, 5, true⟩ h45,
    inspect_validity_and_normalize_policy.2.2.2 envInvalidInfo "img"
      ⟨1200, 400, false⟩ rfl⟩

/-- Claim C9, counterexample.  The claim states that `get_image_info` signals
a decode error to its caller on malformed content.  In the source its
`except` clause swallows the error: the caller receives the empty dict
(a normal return), even though the decode attempt inside did fail. -/
theorem get_image_info_swallows_cex :
    get_image_info ImageBytes.malformed = none ∧
    get_image_info_attempt ImageBytes.malformed = Except.error () :=
  ⟨rfl, rfl⟩

/-- Claim C9 (amended): on malformed content, `process_base64_image`
(normalize) signals the decode error to its caller, while `get_image_info`
(inspect) swallows it and returns the empty dict; the orchestrator — seeing
no validity flag, attempting normalize, and catching its error — falls back
to the original, unadapted content and continues to the upload stage rather
than aborting the event. -/
theorem decode_error_policy (tm cm : String) (q : ℕ) :
    process_base64_image tm ImageBytes.malformed cm q = Except.error () ∧
    get_image_info ImageBytes.malformed = none ∧
    (∀ (env : Env) (img0 : String), env.storageInit = true →
      env.inspectInfo = none → env.processResult = Except.error () →
      (handle_job_vacancy env img0).1 = Except.ok () ∧
      Effect.storeUpload img0 ∈ (handle_job_vacancy env img0).2) := by
  refine ⟨rfl, rfl, fun env img0 hst hins hproc =>
    ⟨handle_job_vacancy_ok env img0, ?_⟩⟩
  have hmem := storeUpload_mem_job env img0 hst
  rwa [step1_adapt_orig env img0 hproc] at hmem

/-- Claim C9 (amended), witness. -/
theorem decode_error_policy_witness :
    process_base64_image "auto" ImageBytes.malformed "pad" 95 = Except.error () ∧
    (handle_job_vacancy envAdaptFail "img").1 = Except.ok () ∧
    Effect.storeUpload "img" ∈ (handle_job_vacancy envAdaptFail "img").2 :=
  ⟨(decode_error_policy "auto" "pad" 95).1,
   ((decode_error_policy "auto" "pad" 95).2.2 envAdaptFail "img" rfl rfl rfl).1,
   ((decode_error_policy "auto" "pad" 95).2.2 envAdaptFail "img" rfl rfl rfl).2⟩

end SosmedUploader
